import Mathlib

/-!
Shallow embedding of the pre-compilation orchestrator `build.rs` of the
webviewer repository.  External state (environment variables, the working
directory, host platform, outcomes of subprocess invocations and file I/O)
is packaged in an `Env` record; every observable effect of the script
(file writes, subprocess invocations, lines printed for the outer build
tool) becomes an event in a trace, and each embedded function returns the
trace of events it produced together with a result that is either normal
completion, a panic (Rust `panic!` / `unwrap` failure), or an explicit
process exit with a code (`std::process::exit`).
-/

namespace WebviewerBuild

/-- Observable effects of the build script.
`fileWrite` is a successful `File::create` + write of the full content;
`probe` is an invocation of a toolchain candidate with `--version`;
`runCodegen` is the external WebIDL codegen subprocess invocation with its
interpreter, script path and three positional arguments;
`directive` is a `println!` line consumed by cargo;
`winresCompile` is the Windows resource embedding (icon + manifest);
`ccCompile` is the cc crate compiling a native helper into a static lib. -/
inductive Ev where
  | fileWrite (path content : String)
  | probe (name : String)
  | runCodegen (python script styleManifest corpusDir outDir : String)
  | directive (line : String)
  | winresCompile (icon manifest : String)
  | ccCompile (src libName : String)
  deriving DecidableEq

/-- Result of running a piece of the script: normal value, Rust panic with
a message, or `std::process::exit` with a code (a Rust `main` returning
`Err` behaves as exit code 1). -/
inductive Res (α : Type) where
  | ok (v : α)
  | panic (msg : String)
  | exit (code : Nat)
  deriving DecidableEq

/-- The external world as seen by one run of the build script.
`vars k` is `env::var(k)` (also covering `env::var_os`); `cwd` is
`env::current_dir()` rendered as a string; `hostWindows` is the
compile-time `cfg!(windows)` of the host; `probeOk n` tells whether
invoking candidate `n` with `--version` exits successfully;
`runPyExit` is the exit code of the WebIDL codegen subprocess
(`none` models a spawn failure, making `.status().unwrap()` panic);
`ioOk p` tells whether creating and writing file `p` succeeds;
`winresOk` / `ccOk` are the outcomes of the resource compiler and the C
compiler; `vergenOk`, `vergenSha`, `vergenErr` describe the outcome of the
vergen git query. -/
structure Env where
  vars : String → Option String
  cwd : String
  hostWindows : Bool
  probeOk : String → Bool
  runPyExit : Option Nat
  ioOk : String → Bool
  winresOk : Bool
  ccOk : Bool
  vergenOk : Bool
  vergenSha : String
  vergenErr : String

/-! ### Paths

`std::path::Path` operations are modelled on Unix-style paths without
`.` or `..` handling beyond what the script can meet: a path is parsed
into its non-empty, non-`.` components; `parent` drops the last component
(and is `none` on an empty or root path, as in Rust); `file_name` is the
last component, `none` when there is none or it is `..`. -/

/-- Split a character list at every `/`. -/
def splitSlash : List Char → List (List Char)
  | [] => [[]]
  | c :: rest =>
    let r := splitSlash rest
    if c = '/' then [] :: r
    else
      match r with
      | [] => [[c]]
      | h :: t => (c :: h) :: t

/-- The normal components of a path string (model of `Path::components`
for plain paths: empty and `.` segments vanish). -/
def pathComponents (s : String) : List String :=
  ((splitSlash s.data).map (fun l => String.mk l)).filter
    (fun c => c != "" && c != ".")

/-- Model of `Path::parent` on a component list. -/
def pathParent (cs : List String) : Option (List String) :=
  if cs.isEmpty then none else some cs.dropLast

/-- Model of `Path::file_name` on a component list. -/
def pathFileName (cs : List String) : Option String :=
  match cs.getLast? with
  | none => none
  | some c => if c = ".." then none else some c

/-- Model of `str::starts_with`. -/
def strStartsWith (s pre : String) : Bool :=
  pre.data.isPrefixOf s.data

/-- Model of `[String]::join(", ")`. -/
def joinComma : List String → String
  | [] => ""
  | [x] => x
  | x :: y :: xs => x ++ ", " ++ joinComma (y :: xs)

/-! ### generate_egl_bindings -/

/-- The bindings text produced by the external `gl_generator` crate for
the fixed request `Registry::new(Api::Egl, (1, 5), Profile::Core,
Fallbacks::All, [])` with `StaticStructGenerator`: a compile-time constant
of that crate, independent of the environment and of the output
directory.  The exact text is owned by the external crate; it is modelled
here as an abstract fixed string. -/
def eglBindingsContent : String :=
  "static struct EGL 1.5 core bindings (gl_generator output)"

/-- `generate_egl_bindings(out_dir)`: create `egl_bindings.rs` in the
output directory, write the fixed bindings into it (both `.unwrap()`ed),
then print the EGL link-library directive. -/
def generate_egl_bindings (e : Env) (out_dir : String) : List Ev × Res Unit :=
  if e.ioOk (out_dir ++ "/egl_bindings.rs") then
    ([Ev.fileWrite (out_dir ++ "/egl_bindings.rs") eglBindingsContent,
      Ev.directive "cargo:rustc-link-lib=EGL"], Res.ok ())
  else
    ([], Res.panic "File create or write_bindings failed")

/-! ### find_python -/

/-- The platform-ordered interpreter candidate list (`cfg!(windows)` picks
at host compile time). -/
def pythonCandidates (hostWindows : Bool) : List String :=
  if hostWindows then ["python.exe", "python"] else ["python3", "python"]

/-- Probe the candidates in order with `--version`; the trace records each
attempted candidate, and the result is the first accepted name. -/
def probeLoop (ok : String → Bool) : List String → List Ev × Option String
  | [] => ([], none)
  | name :: rest =>
    if ok name then ([Ev.probe name], some name)
    else
      let r := probeLoop ok rest
      (Ev.probe name :: r.1, r.2)

/-- The panic message when no candidate works, enumerating the attempted
names. -/
def cantFindPythonMsg (cands : List String) : String :=
  "Can\x27t find python (tried " ++ joinComma cands ++
    ")! Try fixing PATH or setting the PYTHON3 env var"

/-- `find_python()`: honour the `PYTHON3` override unconditionally,
otherwise probe the platform candidate list and keep the first
candidate whose `--version` run succeeds; panic listing all attempted
names when none does. -/
def find_python (e : Env) : List Ev × Res String :=
  match e.vars "PYTHON3" with
  | some v => ([], Res.ok v)
  | none =>
    match probeLoop e.probeOk (pythonCandidates e.hostWindows) with
    | (evs, some name) => (evs, Res.ok name)
    | (evs, none) =>
      (evs, Res.panic (cantFindPythonMsg (pythonCandidates e.hostWindows)))

/-! ### generate_webidl_bindings -/

/-- The panic message for a missing `SERVO_PATH`. -/
def servoPathMsg : String :=
  "Set SERVO_PATH to the root of your servo repository to build local webidl bindings."

/-- `generate_webidl_bindings()`: require `SERVO_PATH`, build the
hardcoded style-manifest path from the current directory, read `OUT_DIR`,
locate python, run Servo codegen with the three positional arguments, and
on a failing exit status terminate the whole process with exit code 1. -/
def generate_webidl_bindings (e : Env) : List Ev × Res Unit :=
  match e.vars "SERVO_PATH" with
  | none => ([], Res.panic servoPathMsg)
  | some servo_path =>
    match e.vars "OUT_DIR" with
    | none => ([], Res.panic "env var_os OUT_DIR returned none")
    | some out_dir =>
      match find_python e with
      | (evs, Res.ok python) =>
        match e.runPyExit with
        | none =>
          (evs ++ [Ev.runCodegen python
            (servo_path ++ "/components/script/dom/bindings/codegen/run.py")
            (e.cwd ++ "/target/release/build/style-712769e00544c534/out/css-properties.json")
            (e.cwd ++ "/webidls") out_dir], Res.panic "Command status failed")
        | some code =>
          if code = 0 then
            (evs ++ [Ev.runCodegen python
              (servo_path ++ "/components/script/dom/bindings/codegen/run.py")
              (e.cwd ++ "/target/release/build/style-712769e00544c534/out/css-properties.json")
              (e.cwd ++ "/webidls") out_dir], Res.ok ())
          else
            (evs ++ [Ev.runCodegen python
              (servo_path ++ "/components/script/dom/bindings/codegen/run.py")
              (e.cwd ++ "/target/release/build/style-712769e00544c534/out/css-properties.json")
              (e.cwd ++ "/webidls") out_dir], Res.exit 1)
      | (evs, Res.panic m) => (evs, Res.panic m)
      | (evs, Res.exit c) => (evs, Res.exit c)

/-! ### main, phase by phase -/

/-- The two unconditional check-cfg registrations. -/
def checkCfgDirectives : List Ev :=
  [Ev.directive "cargo::rustc-check-cfg=cfg(servo_production)",
   Ev.directive "cargo::rustc-check-cfg=cfg(servo_do_not_use_in_production)"]

/-- The production profile flag line. -/
def prodFlag : String := "cargo:rustc-cfg=servo_production"

/-- The non-production profile flag line. -/
def nonProdFlag : String := "cargo:rustc-cfg=servo_do_not_use_in_production"

/-- The profile-directory name: three `parent()` steps up from `OUT_DIR`,
then `file_name()` (each `.unwrap()`ed in the source). -/
def profileName (out : String) : Option String := do
  let krate ← pathParent (pathComponents out)
  let build ← pathParent krate
  let prof ← pathParent build
  pathFileName prof

/-- The profile classifier inlined in `main`: emit the production flag
when the profile-directory name is `production` or starts with
`production-`, the non-production flag otherwise; the `unwrap` chain
panics when the path is too shallow to name the profile directory. -/
def classifyProfile (out : String) : List Ev × Res Unit :=
  match profileName out with
  | none => ([], Res.panic "unwrap on none while extracting profile")
  | some profile =>
    if profile == "production" || strStartsWith profile "production-" then
      ([Ev.directive prodFlag], Res.ok ())
    else
      ([Ev.directive nonProdFlag], Res.ok ())

/-- The Windows cross-compile panic message. -/
def crossCompileMsg : String :=
  "Cross-compiling to windows is currently not supported"

/-- The platform branch of `main`, keyed on target OS and target env:
Windows embeds resources (host Windows only, else panic), macOS compiles
the thread-count helper, Android generates EGL bindings plus the libgcc
shim and a link-search directive, `ohos` generates EGL bindings only. -/
def platformPhase (e : Env) (out tos tenv : String) : List Ev × Res Unit :=
  if tos = "windows" then
    if e.hostWindows then
      if e.winresOk then
        ([Ev.winresCompile "../../resources/servo.ico"
            "platform/windows/servo.exe.manifest"], Res.ok ())
      else ([], Res.panic "winres compile failed")
    else ([], Res.panic crossCompileMsg)
  else if tos = "macos" then
    if e.ccOk then
      ([Ev.ccCompile "platform/macos/count_threads.c" "count_threads"], Res.ok ())
    else ([], Res.panic "cc Build compile failed")
  else if tos = "android" then
    match generate_egl_bindings e out with
    | (evs, Res.ok _) =>
      if e.ioOk (out ++ "/libgcc.a") then
        (evs ++ [Ev.fileWrite (out ++ "/libgcc.a") "INPUT(-lunwind)",
          Ev.directive ("cargo:rustc-link-search=native=" ++ out)], Res.ok ())
      else (evs, Res.panic "File create libgcc.a failed")
    | r => r
  else if tenv = "ohos" then
    generate_egl_bindings e out
  else ([], Res.ok ())

/-- The version stamping phase: on vergen success one
`VERGEN_GIT_SHA` constant line; on any failure a warning line and the
`nogit` sentinel constant, never an abort. -/
def vergenPhase (e : Env) : List Ev :=
  if e.vergenOk then
    [Ev.directive ("cargo:rustc-env=VERGEN_GIT_SHA=" ++ e.vergenSha)]
  else
    [Ev.directive ("cargo:warning=Could not generate git version information: "
        ++ e.vergenErr),
     Ev.directive "cargo:rustc-env=VERGEN_GIT_SHA=nogit"]

/-- The trailing macOS rpath directive. -/
def rpathPhase (tos : String) : List Ev :=
  if tos = "macos" then
    [Ev.directive "cargo:rustc-link-arg=-Wl,-rpath,@executable_path/lib/"]
  else []

/-- `main()`: WebIDL codegen first, then the two check-cfg registrations,
the profile classifier on `OUT_DIR`, the platform branch on target OS and
env, the version stamper, and the macOS rpath directive. -/
def mainRun (e : Env) : List Ev × Res Unit :=
  match generate_webidl_bindings e with
  | (evs0, Res.ok _) =>
    match e.vars "OUT_DIR" with
    | none => (evs0 ++ checkCfgDirectives, Res.exit 1)
    | some out =>
      match classifyProfile out with
      | (evs2, Res.ok _) =>
        match e.vars "CARGO_CFG_TARGET_OS" with
        | none =>
          (evs0 ++ checkCfgDirectives ++ evs2, Res.panic "unwrap CARGO_CFG_TARGET_OS")
        | some tos =>
          match e.vars "CARGO_CFG_TARGET_ENV" with
          | none =>
            (evs0 ++ checkCfgDirectives ++ evs2, Res.panic "unwrap CARGO_CFG_TARGET_ENV")
          | some tenv =>
            match platformPhase e out tos tenv with
            | (evs4, Res.ok _) =>
              (evs0 ++ checkCfgDirectives ++ evs2 ++ evs4
                ++ vergenPhase e ++ rpathPhase tos, Res.ok ())
            | (evs4, r) => (evs0 ++ checkCfgDirectives ++ evs2 ++ evs4, r)
      | (evs2, r) => (evs0 ++ checkCfgDirectives ++ evs2, r)
  | r => r

/-! ### Concrete environments used as witnesses and counterexamples -/

/-- A standard variable assignment: `SERVO_PATH` and `OUT_DIR` set, a
Linux/gnu target, `PYTHON3` unset. -/
def stdVars : String → Option String := fun k =>
  if k = "SERVO_PATH" then some "/servo"
  else if k = "OUT_DIR" then some "target/production/build/webviewer-1234/out"
  else if k = "CARGO_CFG_TARGET_OS" then some "linux"
  else if k = "CARGO_CFG_TARGET_ENV" then some "gnu"
  else none

/-- A healthy baseline environment: python3 answers the probe, the
codegen subprocess succeeds, all I/O succeeds, vergen succeeds. -/
def baseEnv : Env :=
  { vars := stdVars
    cwd := "/work"
    hostWindows := false
    probeOk := fun n => n == "python3"
    runPyExit := some 0
    ioOk := fun _ => true
    winresOk := true
    ccOk := true
    vergenOk := true
    vergenSha := "abc1234"
    vergenErr := "git binary missing" }

/-- Baseline with an Android target OS. -/
def androidEnv : Env :=
  { baseEnv with
    vars := fun k =>
      if k = "CARGO_CFG_TARGET_OS" then some "android" else stdVars k }

/-- Baseline whose codegen subprocess exits with code 2. -/
def codegenFail2Env : Env := { baseEnv with runPyExit := some 2 }

/-- Baseline with `SERVO_PATH` removed. -/
def noServoPathEnv : Env :=
  { baseEnv with
    vars := fun k => if k = "SERVO_PATH" then none else stdVars k }

/-- Baseline with a Windows target OS (host remains non-Windows). -/
def winTargetEnv : Env :=
  { baseEnv with
    vars := fun k =>
      if k = "CARGO_CFG_TARGET_OS" then some "windows" else stdVars k }

/-- Baseline where the vergen git query fails. -/
def noGitEnv : Env := { baseEnv with vergenOk := false }

/-! ### Helper lemmas about event shapes -/

/-- Every event recorded by the probe loop is a probe invocation. -/
theorem probeLoop_events_probe (ok : String → Bool) (cands : List String) :
    ∀ ev ∈ (probeLoop ok cands).1, ∃ n, ev = Ev.probe n := by
  induction cands with
  | nil => intro ev hev; simp [probeLoop] at hev
  | cons name rest ih =>
    intro ev hev
    cases hok : ok name <;> simp [probeLoop, hok] at hev
    · rcases hev with h | h
      · exact ⟨name, h⟩
      · exact ih ev h
    · exact ⟨name, hev⟩

/-- If some candidate passes the probe, the loop returns the first such
candidate, after probing exactly the failing candidates before it. -/
theorem probeLoop_find_some (ok : String → Bool) (cands : List String) (c : String)
    (h : cands.find? ok = some c) :
    probeLoop ok cands =
      ((cands.takeWhile (fun n => !ok n)).map Ev.probe ++ [Ev.probe c], some c) := by
  induction cands with
  | nil => simp [List.find?] at h
  | cons name rest ih =>
    cases hok : ok name
    · rw [List.find?] at h
      rw [hok] at h
      have ihr := ih h
      simp [probeLoop, hok, List.takeWhile, ihr]
    · rw [List.find?] at h
      rw [hok] at h
      simp at h
      subst h
      simp [probeLoop, hok, List.takeWhile]

/-- If no candidate passes the probe, the loop probes every candidate and
returns none. -/
theorem probeLoop_find_none (ok : String → Bool) (cands : List String)
    (h : cands.find? ok = none) :
    probeLoop ok cands = (cands.map Ev.probe, none) := by
  induction cands with
  | nil => simp [probeLoop]
  | cons name rest ih =>
    cases hok : ok name
    · rw [List.find?] at h
      rw [hok] at h
      simp [probeLoop, hok, ih h]
    · rw [List.find?] at h
      rw [hok] at h
      simp at h

/-- Every event of `find_python` is a probe invocation. -/
theorem find_python_events_probe (e : Env) :
    ∀ ev ∈ (find_python e).1, ∃ n, ev = Ev.probe n := by
  intro ev hev
  have hall := probeLoop_events_probe e.probeOk (pythonCandidates e.hostWindows)
  rcases hp : probeLoop e.probeOk (pythonCandidates e.hostWindows) with ⟨evs, r⟩
  rw [hp] at hall
  cases h : e.vars "PYTHON3" with
  | some v => simp only [find_python, h] at hev; simp at hev
  | none =>
    simp only [find_python, h, hp] at hev
    cases r <;> exact hall ev hev

/-- Every event of the WebIDL generator is a probe or the codegen
invocation: it prints no cargo directive and writes no file itself. -/
theorem webidl_events_shape (e : Env) :
    ∀ ev ∈ (generate_webidl_bindings e).1,
      (∃ n, ev = Ev.probe n) ∨ (∃ p s m c o, ev = Ev.runCodegen p s m c o) := by
  intro ev hev
  have hall := find_python_events_probe e
  rcases hf : find_python e with ⟨evs, r⟩
  rw [hf] at hall
  cases hs : e.vars "SERVO_PATH" with
  | none => simp only [generate_webidl_bindings, hs] at hev; simp at hev
  | some sp =>
    cases ho : e.vars "OUT_DIR" with
    | none => simp only [generate_webidl_bindings, hs, ho] at hev; simp at hev
    | some od =>
      simp only [generate_webidl_bindings, hs, ho, hf] at hev
      cases r with
      | panic m => exact Or.inl (hall ev hev)
      | exit c => exact Or.inl (hall ev hev)
      | ok py =>
        have hev2 : ev ∈ evs ++ [Ev.runCodegen py
            (sp ++ "/components/script/dom/bindings/codegen/run.py")
            (e.cwd ++ "/target/release/build/style-712769e00544c534/out/css-properties.json")
            (e.cwd ++ "/webidls") od] := by
          cases hr : e.runPyExit with
          | none => simp only [hr] at hev; exact hev
          | some code =>
            simp only [hr] at hev
            by_cases hc : code = 0
            · rw [if_pos hc] at hev; exact hev
            · rw [if_neg hc] at hev; exact hev
        rw [List.mem_append] at hev2
        rcases hev2 with h | h
        · exact Or.inl (hall ev h)
        · simp at h
          exact Or.inr ⟨_, _, _, _, _, h⟩

/-- The WebIDL generator emits no cargo directive. -/
theorem webidl_no_directive (e : Env) :
    ∀ l, Ev.directive l ∉ (generate_webidl_bindings e).1 := by
  intro l hl
  rcases webidl_events_shape e _ hl with ⟨n, hn⟩ | ⟨p, s, m, c, o, hn⟩ <;> simp at hn

/-- The profile classifier only prints directives. -/
theorem classify_events_directive (out : String) :
    ∀ ev ∈ (classifyProfile out).1, ∃ l, ev = Ev.directive l := by
  intro ev hev
  cases h : profileName out with
  | none => simp only [classifyProfile, h] at hev; simp at hev
  | some p =>
    simp only [classifyProfile, h] at hev
    by_cases hb : (p == "production" || strStartsWith p "production-") = true
    · rw [if_pos hb] at hev; simp at hev; exact ⟨_, hev⟩
    · rw [if_neg hb] at hev; simp at hev; exact ⟨_, hev⟩

/-- The version stamper only prints directives. -/
theorem vergen_events_directive (e : Env) :
    ∀ ev ∈ vergenPhase e, ∃ l, ev = Ev.directive l := by
  intro ev hev
  unfold vergenPhase at hev
  cases h : e.vergenOk <;> rw [h] at hev <;> simp at hev
  · rcases hev with h1 | h1 <;> exact ⟨_, h1⟩
  · exact ⟨_, hev⟩

/-- The trailing rpath phase only prints directives. -/
theorem rpath_events_directive (tos : String) :
    ∀ ev ∈ rpathPhase tos, ∃ l, ev = Ev.directive l := by
  intro ev hev
  unfold rpathPhase at hev
  by_cases h : tos = "macos"
  · rw [if_pos h] at hev; simp at hev; exact ⟨_, hev⟩
  · rw [if_neg h] at hev; simp at hev

/-- Decomposition of a fully successful run into its phases, in program
order. -/
theorem mainRun_decomp (e : Env) (od tos tenv : String)
    (wevs cevs pevs : List Ev)
    (hw : generate_webidl_bindings e = (wevs, Res.ok ()))
    (ho : e.vars "OUT_DIR" = some od)
    (hc : classifyProfile od = (cevs, Res.ok ()))
    (htos : e.vars "CARGO_CFG_TARGET_OS" = some tos)
    (htenv : e.vars "CARGO_CFG_TARGET_ENV" = some tenv)
    (hp : platformPhase e od tos tenv = (pevs, Res.ok ())) :
    mainRun e = (wevs ++ checkCfgDirectives ++ cevs ++ pevs
      ++ vergenPhase e ++ rpathPhase tos, Res.ok ()) := by
  simp only [mainRun, hw, ho, hc, htos, htenv, hp]

/-! ### Claims -/

/-- C1: whenever the output-directory path is deep enough that the
directory three parent levels above it has a name, the profile classifier
emits exactly one of the two profile flags (never zero, never both), and
it is the production flag iff that name is exactly `production` or starts
with `production-`. -/
theorem profile_classifier_one_flag (out profile : String)
    (h : profileName out = some profile) :
    ((classifyProfile out).1.count (Ev.directive prodFlag)
        + (classifyProfile out).1.count (Ev.directive nonProdFlag) = 1)
    ∧ (Ev.directive prodFlag ∈ (classifyProfile out).1
        ↔ (profile == "production" || strStartsWith profile "production-") = true)
    ∧ (classifyProfile out).2 = Res.ok () := by
  by_cases hb : (profile == "production" || strStartsWith profile "production-") = true
  · have hcl : classifyProfile out = ([Ev.directive prodFlag], Res.ok ()) := by
      simp only [classifyProfile, h, if_pos hb]
    rw [hcl]
    exact ⟨by decide, ⟨fun _ => hb, fun _ => by decide⟩, rfl⟩
  · have hcl : classifyProfile out = ([Ev.directive nonProdFlag], Res.ok ()) := by
      simp only [classifyProfile, h, if_neg hb]
    rw [hcl]
    exact ⟨by decide, ⟨fun hmem => absurd hmem (by decide), fun hx => absurd hx hb⟩, rfl⟩

/-- Witness for C1 at a concrete production-profile path. -/
theorem profile_classifier_one_flag_witness :
    profileName "target/production/build/webviewer-1234/out" = some "production"
    ∧ (((classifyProfile "target/production/build/webviewer-1234/out").1.count
          (Ev.directive prodFlag)
        + (classifyProfile "target/production/build/webviewer-1234/out").1.count
          (Ev.directive nonProdFlag) = 1)
      ∧ (Ev.directive prodFlag ∈ (classifyProfile "target/production/build/webviewer-1234/out").1
          ↔ (("production" : String) == "production"
              || strStartsWith "production" "production-") = true)
      ∧ (classifyProfile "target/production/build/webviewer-1234/out").2 = Res.ok ()) :=
  ⟨by decide, profile_classifier_one_flag _ _ (by decide)⟩

/-- C2 counterexample: with the codegen subprocess exiting with status 2,
the orchestrator exits with code 1, not with the subprocess code 2 — the
failure code is not propagated verbatim. -/
theorem codegen_exit_code_cex :
    codegenFail2Env.runPyExit = some 2
    ∧ (mainRun codegenFail2Env).2 = Res.exit 1
    ∧ (mainRun codegenFail2Env).2 ≠ Res.exit 2 := by decide

/-- C2 amended: when the codegen subprocess exits with any non-zero
status, the orchestrator terminates immediately with the fixed exit code
1 (not the subprocess code): the run ends right after the codegen
invocation, with no retry and no directive ever emitted. -/
theorem codegen_failure_exits_one (e : Env) (sp od py : String)
    (pevs : List Ev) (c : Nat)
    (hs : e.vars "SERVO_PATH" = some sp)
    (ho : e.vars "OUT_DIR" = some od)
    (hf : find_python e = (pevs, Res.ok py))
    (hc : e.runPyExit = some c) (h0 : c ≠ 0) :
    mainRun e = (pevs ++ [Ev.runCodegen py
        (sp ++ "/components/script/dom/bindings/codegen/run.py")
        (e.cwd ++ "/target/release/build/style-712769e00544c534/out/css-properties.json")
        (e.cwd ++ "/webidls") od], Res.exit 1)
    ∧ ∀ l, Ev.directive l ∉ (mainRun e).1 := by
  have hwe : generate_webidl_bindings e = (pevs ++ [Ev.runCodegen py
      (sp ++ "/components/script/dom/bindings/codegen/run.py")
      (e.cwd ++ "/target/release/build/style-712769e00544c534/out/css-properties.json")
      (e.cwd ++ "/webidls") od], Res.exit 1) := by
    simp only [generate_webidl_bindings, hs, ho, hf, hc, if_neg h0]
  have hm : mainRun e = (pevs ++ [Ev.runCodegen py
      (sp ++ "/components/script/dom/bindings/codegen/run.py")
      (e.cwd ++ "/target/release/build/style-712769e00544c534/out/css-properties.json")
      (e.cwd ++ "/webidls") od], Res.exit 1) := by
    simp only [mainRun, hwe]
  refine ⟨hm, ?_⟩
  intro l hl
  rw [hm] at hl
  simp at hl
  have hall := find_python_events_probe e
  rw [hf] at hall
  rcases hall _ hl with ⟨n, hn⟩
  simp at hn

/-- Witness for C2 amended at a concrete environment whose codegen
subprocess exits with status 2. -/
theorem codegen_failure_exits_one_witness :
    codegenFail2Env.runPyExit = some 2 ∧ (2 : Nat) ≠ 0
    ∧ (mainRun codegenFail2Env).2 = Res.exit 1
    ∧ Ev.directive prodFlag ∉ (mainRun codegenFail2Env).1 := by
  have h := codegen_failure_exits_one codegenFail2Env "/servo"
    "target/production/build/webviewer-1234/out" "python3" [Ev.probe "python3"] 2
    (by decide) (by decide) (by decide) (by decide) (by decide)
  exact ⟨by decide, by decide, by rw [h.1], h.2 prodFlag⟩

/-- C3: with the `PYTHON3` override unset, the locator probes the
platform-ordered candidate list in order, returns the first candidate
whose `--version` invocation succeeds (having probed exactly the failing
ones before it), and when none succeeds it panics with a diagnostic in
which every attempted candidate name occurs. -/
theorem toolchain_locator_first_success (e : Env)
    (h : e.vars "PYTHON3" = none) :
    (∀ c, (pythonCandidates e.hostWindows).find? e.probeOk = some c →
      find_python e =
        (((pythonCandidates e.hostWindows).takeWhile
            (fun n => !e.probeOk n)).map Ev.probe ++ [Ev.probe c], Res.ok c))
    ∧ ((pythonCandidates e.hostWindows).find? e.probeOk = none →
      find_python e = ((pythonCandidates e.hostWindows).map Ev.probe,
          Res.panic (cantFindPythonMsg (pythonCandidates e.hostWindows)))
      ∧ ∀ c ∈ pythonCandidates e.hostWindows,
          ∃ p q, cantFindPythonMsg (pythonCandidates e.hostWindows) = p ++ c ++ q) := by
  constructor
  · intro c hc
    simp only [find_python, h, probeLoop_find_some e.probeOk _ c hc]
  · intro hn
    constructor
    · simp only [find_python, h, probeLoop_find_none e.probeOk _ hn]
    · intro c hcmem
      cases hw : e.hostWindows
      · rw [hw] at hcmem
        simp [pythonCandidates] at hcmem
        rcases hcmem with rfl | rfl
        · exact ⟨"Can\x27t find python (tried ",
            ", python)! Try fixing PATH or setting the PYTHON3 env var", by decide⟩
        · exact ⟨"Can\x27t find python (tried python3, ",
            ")! Try fixing PATH or setting the PYTHON3 env var", by decide⟩
      · rw [hw] at hcmem
        simp [pythonCandidates] at hcmem
        rcases hcmem with rfl | rfl
        · exact ⟨"Can\x27t find python (tried ",
            ", python)! Try fixing PATH or setting the PYTHON3 env var", by decide⟩
        · exact ⟨"Can\x27t find python (tried python.exe, ",
            ")! Try fixing PATH or setting the PYTHON3 env var", by decide⟩

/-- Witness for C3: in the baseline environment (no override, python3
answers), the locator returns python3 after a single probe. -/
theorem toolchain_locator_first_success_witness :
    baseEnv.vars "PYTHON3" = none
    ∧ find_python baseEnv = ([Ev.probe "python3"], Res.ok "python3") := by
  refine ⟨by decide, ?_⟩
  have h := (toolchain_locator_first_success baseEnv (by decide)).1
    "python3" (by decide)
  rw [h]
  decide

/-- C4: when `SERVO_PATH` is unset the whole run aborts at once with the
remediation message (which names `SERVO_PATH`), before any toolchain
probe and before any codegen invocation: the event trace is empty. -/
theorem missing_servo_path_aborts_first (e : Env)
    (h : e.vars "SERVO_PATH" = none) :
    mainRun e = ([], Res.panic servoPathMsg)
    ∧ (∀ n, Ev.probe n ∉ (mainRun e).1)
    ∧ (∀ p s m c o, Ev.runCodegen p s m c o ∉ (mainRun e).1)
    ∧ ∃ p q, servoPathMsg = p ++ "SERVO_PATH" ++ q := by
  have hw : generate_webidl_bindings e = ([], Res.panic servoPathMsg) := by
    simp only [generate_webidl_bindings, h]
  have hm : mainRun e = ([], Res.panic servoPathMsg) := by
    simp only [mainRun, hw]
  refine ⟨hm, ?_, ?_, ⟨"Set ",
    " to the root of your servo repository to build local webidl bindings.", by decide⟩⟩
  · intro n hn; rw [hm] at hn; simp at hn
  · intro p s m c o hn; rw [hm] at hn; simp at hn

/-- Witness for C4 at a concrete environment without `SERVO_PATH`. -/
theorem missing_servo_path_aborts_first_witness :
    noServoPathEnv.vars "SERVO_PATH" = none
    ∧ mainRun noServoPathEnv = ([], Res.panic servoPathMsg) :=
  ⟨by decide, (missing_servo_path_aborts_first noServoPathEnv (by decide)).1⟩

/-- C5: graphics-binding generation is deterministic and idempotent — in
any two environments where the file write succeeds it produces the same
events for the same output directory, writing the fixed bindings content
to `egl_bindings.rs` — and each invocation emits the EGL link-library
directive exactly once. -/
theorem egl_bindings_deterministic (ea eb : Env) (out : String)
    (ha : ea.ioOk (out ++ "/egl_bindings.rs") = true)
    (hb : eb.ioOk (out ++ "/egl_bindings.rs") = true) :
    generate_egl_bindings ea out = generate_egl_bindings eb out
    ∧ generate_egl_bindings ea out =
        ([Ev.fileWrite (out ++ "/egl_bindings.rs") eglBindingsContent,
          Ev.directive "cargo:rustc-link-lib=EGL"], Res.ok ())
    ∧ (generate_egl_bindings ea out).1.count
        (Ev.directive "cargo:rustc-link-lib=EGL") = 1 := by
  have hA : generate_egl_bindings ea out =
      ([Ev.fileWrite (out ++ "/egl_bindings.rs") eglBindingsContent,
        Ev.directive "cargo:rustc-link-lib=EGL"], Res.ok ()) := by
    simp only [generate_egl_bindings, if_pos ha]
  have hB : generate_egl_bindings eb out =
      ([Ev.fileWrite (out ++ "/egl_bindings.rs") eglBindingsContent,
        Ev.directive "cargo:rustc-link-lib=EGL"], Res.ok ()) := by
    simp only [generate_egl_bindings, if_pos hb]
  rw [hA, hB]
  refine ⟨rfl, rfl, ?_⟩
  simp [List.count_cons]

/-- Witness for C5 in the baseline environment. -/
theorem egl_bindings_deterministic_witness :
    baseEnv.ioOk ("outdir" ++ "/egl_bindings.rs") = true
    ∧ generate_egl_bindings baseEnv "outdir" =
        ([Ev.fileWrite ("outdir" ++ "/egl_bindings.rs") eglBindingsContent,
          Ev.directive "cargo:rustc-link-lib=EGL"], Res.ok ())
    ∧ (generate_egl_bindings baseEnv "outdir").1.count
        (Ev.directive "cargo:rustc-link-lib=EGL") = 1 := by
  have h := egl_bindings_deterministic baseEnv baseEnv "outdir" (by decide) (by decide)
  exact ⟨by decide, h.2.1, h.2.2⟩

/-- C6: when the vergen git query fails in a run whose other phases
succeed, the run still completes successfully while emitting the warning
diagnostic and the `nogit` sentinel constant. -/
theorem vergen_failure_nonfatal (e : Env) (od tos tenv : String)
    (wevs cevs pevs : List Ev)
    (hw : generate_webidl_bindings e = (wevs, Res.ok ()))
    (ho : e.vars "OUT_DIR" = some od)
    (hc : classifyProfile od = (cevs, Res.ok ()))
    (htos : e.vars "CARGO_CFG_TARGET_OS" = some tos)
    (htenv : e.vars "CARGO_CFG_TARGET_ENV" = some tenv)
    (hp : platformPhase e od tos tenv = (pevs, Res.ok ()))
    (hv : e.vergenOk = false) :
    (mainRun e).2 = Res.ok ()
    ∧ Ev.directive ("cargo:warning=Could not generate git version information: "
        ++ e.vergenErr) ∈ (mainRun e).1
    ∧ Ev.directive "cargo:rustc-env=VERGEN_GIT_SHA=nogit" ∈ (mainRun e).1 := by
  have hm := mainRun_decomp e od tos tenv wevs cevs pevs hw ho hc htos htenv hp
  rw [hm]
  simp [vergenPhase, hv]

/-- Witness for C6 in the baseline environment with a failing git
query. -/
theorem vergen_failure_nonfatal_witness :
    noGitEnv.vergenOk = false
    ∧ (mainRun noGitEnv).2 = Res.ok ()
    ∧ Ev.directive ("cargo:warning=Could not generate git version information: "
        ++ noGitEnv.vergenErr) ∈ (mainRun noGitEnv).1
    ∧ Ev.directive "cargo:rustc-env=VERGEN_GIT_SHA=nogit" ∈ (mainRun noGitEnv).1 := by
  have h := vergen_failure_nonfatal noGitEnv
    "target/production/build/webviewer-1234/out" "linux" "gnu"
    [Ev.probe "python3",
     Ev.runCodegen "python3" "/servo/components/script/dom/bindings/codegen/run.py"
       "/work/target/release/build/style-712769e00544c534/out/css-properties.json"
       "/work/webidls" "target/production/build/webviewer-1234/out"]
    [Ev.directive prodFlag] []
    (by decide) (by decide) (by decide) (by decide) (by decide) (by decide) (by decide)
  exact ⟨by decide, h.1, h.2.1, h.2.2⟩

/-- C7 counterexample: on an Android-target run the platform branch
produces four observable effects, not three — besides the bindings file,
the shim file and the link-search directive it also emits the EGL
link-library directive. -/
theorem android_branch_three_effects_cex :
    (platformPhase androidEnv "target/production/build/webviewer-1234/out"
        "android" "gnu").1 =
      [Ev.fileWrite "target/production/build/webviewer-1234/out/egl_bindings.rs"
         eglBindingsContent,
       Ev.directive "cargo:rustc-link-lib=EGL",
       Ev.fileWrite "target/production/build/webviewer-1234/out/libgcc.a"
         "INPUT(-lunwind)",
       Ev.directive
         "cargo:rustc-link-search=native=target/production/build/webviewer-1234/out"]
    ∧ (platformPhase androidEnv "target/production/build/webviewer-1234/out"
        "android" "gnu").1.length ≠ 3
    ∧ Ev.directive "cargo:rustc-link-lib=EGL" ∈ (mainRun androidEnv).1 := by decide

/-- C7 amended: on an Android-target run with working I/O, the platform
branch produces exactly four effects, in order: the generated graphics
bindings file, the EGL link-library directive (emitted by the graphics
generator), the one-line `libgcc.a` shim redirecting to libunwind, and
the native link-search-path directive pointing at the output
directory. -/
theorem android_branch_effects (e : Env) (out tenv : String)
    (h1 : e.ioOk (out ++ "/egl_bindings.rs") = true)
    (h2 : e.ioOk (out ++ "/libgcc.a") = true) :
    platformPhase e out "android" tenv =
      ([Ev.fileWrite (out ++ "/egl_bindings.rs") eglBindingsContent,
        Ev.directive "cargo:rustc-link-lib=EGL",
        Ev.fileWrite (out ++ "/libgcc.a") "INPUT(-lunwind)",
        Ev.directive ("cargo:rustc-link-search=native=" ++ out)], Res.ok ()) := by
  have hegl : generate_egl_bindings e out =
      ([Ev.fileWrite (out ++ "/egl_bindings.rs") eglBindingsContent,
        Ev.directive "cargo:rustc-link-lib=EGL"], Res.ok ()) := by
    simp only [generate_egl_bindings, if_pos h1]
  simp only [platformPhase,
    if_neg (by decide : ¬ ("android" : String) = "windows"),
    if_neg (by decide : ¬ ("android" : String) = "macos"),
    if_pos (rfl : ("android" : String) = "android"),
    hegl, if_pos h2]
  rfl

/-- Witness for C7 amended in the baseline environment. -/
theorem android_branch_effects_witness :
    baseEnv.ioOk ("o" ++ "/egl_bindings.rs") = true
    ∧ baseEnv.ioOk ("o" ++ "/libgcc.a") = true
    ∧ platformPhase baseEnv "o" "android" "gnu" =
      ([Ev.fileWrite ("o" ++ "/egl_bindings.rs") eglBindingsContent,
        Ev.directive "cargo:rustc-link-lib=EGL",
        Ev.fileWrite ("o" ++ "/libgcc.a") "INPUT(-lunwind)",
        Ev.directive ("cargo:rustc-link-search=native=" ++ "o")], Res.ok ()) :=
  ⟨by decide, by decide,
    android_branch_effects baseEnv "o" "gnu" (by decide) (by decide)⟩

/-- C8: a run targeting Windows from a non-Windows host (with the earlier
phases succeeding) aborts with the cross-compilation diagnostic, and no
resource embedding is ever attempted in the trace. -/
theorem windows_cross_compile_aborts (e : Env) (od tenv : String)
    (wevs cevs : List Ev)
    (hhost : e.hostWindows = false)
    (hw : generate_webidl_bindings e = (wevs, Res.ok ()))
    (ho : e.vars "OUT_DIR" = some od)
    (hc : classifyProfile od = (cevs, Res.ok ()))
    (htos : e.vars "CARGO_CFG_TARGET_OS" = some "windows")
    (htenv : e.vars "CARGO_CFG_TARGET_ENV" = some tenv) :
    (mainRun e).2 = Res.panic crossCompileMsg
    ∧ ∀ i m, Ev.winresCompile i m ∉ (mainRun e).1 := by
  have hplat : platformPhase e od "windows" tenv = ([], Res.panic crossCompileMsg) := by
    simp only [platformPhase, if_pos (rfl : ("windows" : String) = "windows"), hhost]
    simp
  have hm : mainRun e =
      (wevs ++ checkCfgDirectives ++ cevs ++ [], Res.panic crossCompileMsg) := by
    simp only [mainRun, hw, ho, hc, htos, htenv, hplat]
  constructor
  · rw [hm]
  · intro i m hmem
    rw [hm] at hmem
    simp at hmem
    rcases hmem with h | h | h
    · have hsh := webidl_events_shape e
      rw [hw] at hsh
      rcases hsh _ h with ⟨n, hn⟩ | ⟨p, s, m2, c2, o, hn⟩ <;> simp at hn
    · simp [checkCfgDirectives] at h
    · have hsh := classify_events_directive od
      rw [hc] at hsh
      rcases hsh _ h with ⟨l, hl⟩
      simp at hl

/-- Witness for C8 at a concrete Windows-target environment on a
non-Windows host. -/
theorem windows_cross_compile_aborts_witness :
    winTargetEnv.hostWindows = false
    ∧ (mainRun winTargetEnv).2 = Res.panic crossCompileMsg
    ∧ Ev.winresCompile "../../resources/servo.ico"
        "platform/windows/servo.exe.manifest" ∉ (mainRun winTargetEnv).1 := by
  have h := windows_cross_compile_aborts winTargetEnv
    "target/production/build/webviewer-1234/out" "gnu"
    [Ev.probe "python3",
     Ev.runCodegen "python3" "/servo/components/script/dom/bindings/codegen/run.py"
       "/work/target/release/build/style-712769e00544c534/out/css-properties.json"
       "/work/webidls" "target/production/build/webviewer-1234/out"]
    [Ev.directive prodFlag]
    (by decide) (by decide) (by decide) (by decide) (by decide) (by decide)
  exact ⟨by decide, h.1,
    h.2 "../../resources/servo.ico" "platform/windows/servo.exe.manifest"⟩

/-- C9 counterexample: in a concrete Android-target run the profile flag
(position 4 of the trace) precedes the graphics-bindings file write
(position 5) — the graphics binding generator runs after the profile
classifier, inside the platform branch, and that late component writes
generated-source and artifact files (positions 5 and 7). -/
theorem generators_before_classifier_cex :
    (mainRun androidEnv).1[4]? = some (Ev.directive prodFlag)
    ∧ (mainRun androidEnv).1[5]? = some (Ev.fileWrite
        "target/production/build/webviewer-1234/out/egl_bindings.rs"
        eglBindingsContent)
    ∧ (mainRun androidEnv).1[7]? = some (Ev.fileWrite
        "target/production/build/webviewer-1234/out/libgcc.a"
        "INPUT(-lunwind)") := by decide

/-- C9 amended: in every fully successful run the trace decomposes in
program order as interface-description generation, the two check-cfg
registrations, the profile classifier, the platform branch, the version
stamper and the rpath phase; the classifier, version stamper and rpath
phase emit only build directives, but the graphics generator runs inside
the platform branch (Android / ohos), after the classifier, and that
branch may write files. -/
theorem phase_order_structure (e : Env) (od tos tenv : String)
    (wevs cevs pevs : List Ev)
    (hw : generate_webidl_bindings e = (wevs, Res.ok ()))
    (ho : e.vars "OUT_DIR" = some od)
    (hc : classifyProfile od = (cevs, Res.ok ()))
    (htos : e.vars "CARGO_CFG_TARGET_OS" = some tos)
    (htenv : e.vars "CARGO_CFG_TARGET_ENV" = some tenv)
    (hp : platformPhase e od tos tenv = (pevs, Res.ok ())) :
    mainRun e = (wevs ++ checkCfgDirectives ++ cevs ++ pevs
      ++ vergenPhase e ++ rpathPhase tos, Res.ok ())
    ∧ (∀ ev ∈ cevs, ∃ l, ev = Ev.directive l)
    ∧ (∀ ev ∈ vergenPhase e, ∃ l, ev = Ev.directive l)
    ∧ (∀ ev ∈ rpathPhase tos, ∃ l, ev = Ev.directive l) := by
  refine ⟨mainRun_decomp e od tos tenv wevs cevs pevs hw ho hc htos htenv hp,
    ?_, vergen_events_directive e, rpath_events_directive tos⟩
  have hsh := classify_events_directive od
  rw [hc] at hsh
  exact hsh

/-- Witness for C9 amended in the baseline (Linux-target) environment. -/
theorem phase_order_structure_witness :
    mainRun baseEnv =
      ([Ev.probe "python3",
        Ev.runCodegen "python3" "/servo/components/script/dom/bindings/codegen/run.py"
          "/work/target/release/build/style-712769e00544c534/out/css-properties.json"
          "/work/webidls" "target/production/build/webviewer-1234/out"]
        ++ checkCfgDirectives ++ [Ev.directive prodFlag] ++ []
        ++ vergenPhase baseEnv ++ rpathPhase "linux", Res.ok ())
    ∧ Ev.directive prodFlag ∈ [Ev.directive prodFlag] := by
  have h := phase_order_structure baseEnv
    "target/production/build/webviewer-1234/out" "linux" "gnu"
    [Ev.probe "python3",
     Ev.runCodegen "python3" "/servo/components/script/dom/bindings/codegen/run.py"
       "/work/target/release/build/style-712769e00544c534/out/css-properties.json"
       "/work/webidls" "target/production/build/webviewer-1234/out"]
    [Ev.directive prodFlag] []
    (by decide) (by decide) (by decide) (by decide) (by decide) (by decide)
  exact ⟨h.1, by decide⟩

/-- C10: in every run the trace of the interface-description generation
is a prefix of the whole run trace and contains no build directive of any
kind; and whenever that generation fails (missing project root, failed
toolchain location, failed codegen subprocess), the run terminates there,
having emitted zero build directives. -/
theorem no_directive_before_webidl (e : Env) :
    (∃ rest, (mainRun e).1 = (generate_webidl_bindings e).1 ++ rest)
    ∧ (∀ l, Ev.directive l ∉ (generate_webidl_bindings e).1)
    ∧ ((generate_webidl_bindings e).2 ≠ Res.ok ()
        → mainRun e = generate_webidl_bindings e
          ∧ ∀ l, Ev.directive l ∉ (mainRun e).1) := by
  rcases hg : generate_webidl_bindings e with ⟨wevs, r⟩
  have hnd : ∀ l, Ev.directive l ∉ wevs := by
    have h := webidl_no_directive e
    rw [hg] at h
    exact h
  refine ⟨?_, hnd, ?_⟩
  · cases r with
    | ok v =>
      cases v
      cases ho : e.vars "OUT_DIR" with
      | none =>
        refine ⟨checkCfgDirectives, ?_⟩
        simp only [mainRun, hg, ho]
      | some od =>
        rcases hcl : classifyProfile od with ⟨cevs, rc⟩
        cases rc with
        | ok v2 =>
          cases v2
          cases htos : e.vars "CARGO_CFG_TARGET_OS" with
          | none =>
            refine ⟨checkCfgDirectives ++ cevs, ?_⟩
            simp only [mainRun, hg, ho, hcl, htos]
            simp
          | some tos =>
            cases htenv : e.vars "CARGO_CFG_TARGET_ENV" with
            | none =>
              refine ⟨checkCfgDirectives ++ cevs, ?_⟩
              simp only [mainRun, hg, ho, hcl, htos, htenv]
              simp
            | some tenv =>
              rcases hpl : platformPhase e od tos tenv with ⟨pevs, rp⟩
              cases rp with
              | ok v3 =>
                cases v3
                refine ⟨checkCfgDirectives ++ cevs ++ pevs
                  ++ vergenPhase e ++ rpathPhase tos, ?_⟩
                simp only [mainRun, hg, ho, hcl, htos, htenv, hpl]
                simp
              | panic m =>
                refine ⟨checkCfgDirectives ++ cevs ++ pevs, ?_⟩
                simp only [mainRun, hg, ho, hcl, htos, htenv, hpl]
                simp
              | exit c =>
                refine ⟨checkCfgDirectives ++ cevs ++ pevs, ?_⟩
                simp only [mainRun, hg, ho, hcl, htos, htenv, hpl]
                simp
        | panic m =>
          refine ⟨checkCfgDirectives ++ cevs, ?_⟩
          simp only [mainRun, hg, ho, hcl]
          simp
        | exit c =>
          refine ⟨checkCfgDirectives ++ cevs, ?_⟩
          simp only [mainRun, hg, ho, hcl]
          simp
    | panic m =>
      refine ⟨[], ?_⟩
      simp only [mainRun, hg]
      simp
    | exit c =>
      refine ⟨[], ?_⟩
      simp only [mainRun, hg]
      simp
  · intro hne
    cases r with
    | ok v =>
      cases v
      exact absurd rfl hne
    | panic m =>
      have hm : mainRun e = (wevs, Res.panic m) := by
        simp only [mainRun, hg]
      exact ⟨hm, by rw [hm]; exact hnd⟩
    | exit c =>
      have hm : mainRun e = (wevs, Res.exit c) := by
        simp only [mainRun, hg]
      exact ⟨hm, by rw [hm]; exact hnd⟩

/-- Witness for C10: a failing codegen run terminates at the generator
with zero directives emitted. -/
theorem no_directive_before_webidl_witness :
    (generate_webidl_bindings codegenFail2Env).2 ≠ Res.ok ()
    ∧ mainRun codegenFail2Env = generate_webidl_bindings codegenFail2Env
    ∧ Ev.directive prodFlag ∉ (mainRun codegenFail2Env).1 := by
  have h := (no_directive_before_webidl codegenFail2Env).2.2 (by decide)
  exact ⟨by decide, h.1, h.2 prodFlag⟩

end WebviewerBuild
